import Mathlib

/-! Shallow embedding of the mazapo Telegram movie bot (src/main.py and
src/bot.py, two near-identical revisions of the same program).

The embedding models the process-local mutable state (user sessions,
verified-user set, user directory, counters), the Catalog Store (the
`movies` table) and the Search Index (the Algolia mirror) as fields of a
single `BotState`; external effects (sends, search calls, broadcast
deliveries) are recorded in an `Effect` list; fallible external calls
(database commit, index write, delivery) are driven by explicit boolean
or oracle parameters. Each handler of the source becomes a pure function
from state and event data to effects and a new state. -/

namespace Mazapo

/-- Operator allow-list, hardcoded in the source as `ADMIN_IDS = [7263519581]`. -/
def ADMIN_IDS : List Int := [7263519581]

/-- Default library channel identifier (`CORRECT_LIBRARY_CHANNEL_ID`). -/
def CORRECT_LIBRARY_CHANNEL_ID : Int := -1003138949015

/-- Cooldown window of the per-user rate limiter (`RATE_LIMIT_SECONDS = 1`). -/
def RATE_LIMIT_SECONDS : Rat := 1

/-- Default number of hits requested from the Search Index (`limit: int = 20`). -/
def DEFAULT_SEARCH_LIMIT : Nat := 20

/-- One entry of the `user_sessions` defaultdict: a per-user dictionary that may
hold a `last_action` timestamp and a `last_search_msg` message id. -/
structure Session where
  last_action : Option Rat
  last_search_msg : Option Nat
deriving DecidableEq, Repr

/-- A row of the `movies` table: synthetic primary key, title, unique post id. -/
structure MediaRecord where
  id : Nat
  title : String
  post_id : Int
deriving DecidableEq, Repr

/-- A document of the Search Index: mirrors a `MediaRecord` under its synthetic id. -/
structure SearchDoc where
  objectID : Nat
  title : String
  post_id : Int
deriving DecidableEq, Repr

/-- A raw hit returned by the Search Index: both fields may be absent. -/
structure AlgoliaHit where
  title : Option String
  post_id : Option Int
deriving DecidableEq, Repr

/-- A filtered search result presented to the user. -/
structure SearchResult where
  title : String
  post_id : Int
deriving DecidableEq, Repr

/-- The parts of an incoming channel post that `handle_channel_post` inspects. -/
structure ChannelPost where
  chat_id : Option Int
  has_document : Bool
  has_video : Bool
  caption : Option String
  message_id : Int
deriving DecidableEq, Repr

/-- The parts of a replied-to message that `cmd_broadcast` inspects. -/
structure ReplyContent where
  photo : Option String
  video : Option String
  caption : Option String
deriving DecidableEq, Repr

/-- Observable external effects of a handler invocation. -/
inductive Effect where
  | searchCall (query : String)
  | answer (text : String)
  | adminWelcome
  | joinPrompt
  | verifiedWelcome
  | sendLink (url : String)
  | callbackAnswer (text : String)
  | deleteMessage (msgId : Nat)
  | sendBroadcast (uid : Int)
  | editStatus (text : String)
deriving DecidableEq, Repr

/-- The process-local state of the bot plus the two external stores. -/
structure BotState where
  user_sessions : List (Int × Session)
  verified_users : List Int
  users_database : List Int
  total_searches : Nat
  algolia_searches : Nat
  start_time : Rat
  movies : List MediaRecord
  next_movie_id : Nat
  index : List SearchDoc
  db_initialized : Bool
  algolia_initialized : Bool
deriving DecidableEq, Repr

/-- The characters of a string before its first newline, the list-level model
of `caption.split('\n')[0]`. -/
def takeUntilNewline : List Char → List Char
  | [] => []
  | c :: rest => if c = '\n' then [] else c :: takeUntilNewline rest

/-- Drop leading whitespace characters. -/
def dropLeadingWs : List Char → List Char
  | [] => []
  | c :: rest => if c.isWhitespace then dropLeadingWs rest else c :: rest

/-- The model of Python `str.strip()`: drop whitespace from both ends. -/
def python_strip (s : String) : String :=
  ⟨(dropLeadingWs (dropLeadingWs s.data).reverse).reverse⟩

/-- The model of `text.startswith('/')`. -/
def starts_with_slash (s : String) : Bool :=
  match s.data with
  | [] => false
  | c :: _ => decide (c = '/')

/-- Split a character list on a single separator character, the list-level
model of Python `str.split(sep)` for a one-character separator. -/
def splitOnChar (sep : Char) : List Char → List (List Char)
  | [] => [[]]
  | c :: rest =>
      let r := splitOnChar sep rest
      if c = sep then [] :: r
      else
        match r with
        | [] => [[c]]
        | g :: gs => (c :: g) :: gs

/-- Accumulate decimal digits; `none` until a digit is seen, `none` forever on
a non-digit. -/
def parseNatAux : Option Nat → List Char → Option Nat
  | acc, [] => acc
  | acc, c :: rest =>
      if c.isDigit then parseNatAux (some ((acc.getD 0) * 10 + (c.toNat - 48))) rest
      else none

/-- The model of Python `int(s)` on callback-data fragments: an optional sign
followed by at least one decimal digit. -/
def parseIntChars : List Char → Option Int
  | '-' :: rest => (parseNatAux none rest).map (fun n => -(n : Int))
  | '+' :: rest => (parseNatAux none rest).map (fun n => (n : Int))
  | l => (parseNatAux none l).map (fun n => (n : Int))

/-- Lookup of `user_sessions[uid]`; `none` models `uid not in user_sessions`. -/
def getSession : List (Int × Session) → Int → Option Session
  | [], _ => none
  | (k, s) :: rest, uid => if k = uid then some s else getSession rest uid

/-- Update of the defaultdict: mutate the existing entry, or create one from the
empty dictionary when absent. -/
def updSession : List (Int × Session) → Int → (Session → Session) → List (Int × Session)
  | [], uid, f => [(uid, f { last_action := none, last_search_msg := none })]
  | (k, s) :: rest, uid, f =>
      if k = uid then (k, f s) :: rest else (k, s) :: updSession rest uid f

/-- `check_rate_limit`: reject when the user has an entry whose last action was
less than `RATE_LIMIT_SECONDS` ago, else record the current time and accept. -/
def check_rate_limit (ss : List (Int × Session)) (uid : Int) (now : Rat) :
    Bool × List (Int × Session) :=
  match getSession ss uid with
  | some s =>
      if now - s.last_action.getD 0 < RATE_LIMIT_SECONDS then (false, ss)
      else (true, updSession ss uid (fun s => { s with last_action := some now }))
  | none => (true, updSession ss uid (fun s => { s with last_action := some now }))

/-- `add_user`: insert the user into the directory if not already present. -/
def add_user (db : List Int) (uid : Int) : List Int :=
  if uid ∈ db then db else db ++ [uid]

/-- The hit-filtering loop of `sync_algolia_fuzzy_search`: keep a hit only when
`hit.get('post_id')` is present and truthy, defaulting a missing title. -/
def filter_hits : List AlgoliaHit → List SearchResult
  | [] => []
  | h :: rest =>
      match h.post_id with
      | some p =>
          if p ≠ 0 then { title := h.title.getD "Unknown Movie", post_id := p } :: filter_hits rest
          else filter_hits rest
      | none => filter_hits rest

/-- Result of one Search Index query: effects, filtered results, new state. -/
structure SearchStep where
  effects : List Effect
  results : List SearchResult
  state : BotState
deriving Repr

/-- `sync_algolia_fuzzy_search`: bail out when uninitialized, otherwise bump the
search counter, attempt the index call (`ok` is its success), and filter hits. -/
def sync_algolia_fuzzy_search (st : BotState) (q : String) (hits : List AlgoliaHit)
    (ok : Bool) : SearchStep :=
  if st.algolia_initialized = false then { effects := [], results := [], state := st }
  else
    let st1 := { st with total_searches := st.total_searches + 1 }
    if ok then
      { effects := [Effect.searchCall q], results := filter_hits hits,
        state := { st1 with algolia_searches := st1.algolia_searches + 1 } }
    else
      { effects := [Effect.searchCall q], results := [], state := st1 }

/-- `sync_add_movie_to_db_and_algolia`: `commit_ok` is the success of the insert
and commit of the new row; `index_ok` is the success of the subsequent
`save_object` index write. A failed commit is rolled back; a failed index write
happens after the commit, which the rollback cannot undo. -/
def sync_add_movie_to_db_and_algolia (st : BotState) (title : String) (post_id : Int)
    (commit_ok index_ok : Bool) : Bool × BotState :=
  if st.algolia_initialized = false ∨ st.db_initialized = false then (false, st)
  else if st.movies.any (fun m => decide (m.post_id = post_id)) then (false, st)
  else if commit_ok = false then (false, st)
  else
    let m : MediaRecord := { id := st.next_movie_id, title := python_strip title, post_id := post_id }
    let st1 := { st with movies := st.movies ++ [m], next_movie_id := st.next_movie_id + 1 }
    if index_ok then
      (true, { st1 with index := st1.index ++ [{ objectID := m.id, title := python_strip title, post_id := post_id }] })
    else
      (false, st1)

/-- Number of catalog rows carrying the given post id. -/
def countMovies (st : BotState) (pid : Int) : Nat :=
  (st.movies.filter (fun m => decide (m.post_id = pid))).length

/-- Number of search documents carrying the given post id. -/
def countDocs (st : BotState) (pid : Int) : Nat :=
  (st.index.filter (fun d => decide (d.post_id = pid))).length

/-- Fold a sequence of further ingestion attempts for the same post id. -/
def ingest_attempts (st : BotState) (pid : Int) : List (String × Bool × Bool) → BotState
  | [] => st
  | (t, c, i) :: rest =>
      ingest_attempts (sync_add_movie_to_db_and_algolia st t pid c i).2 pid rest

/-- Title derivation of `handle_channel_post`: `caption or ""`, then the first
line trimmed when the caption is nonempty, else the placeholder. -/
def derived_title (caption : Option String) : String :=
  let c := caption.getD ""
  if c = "" then "Unknown Movie"
  else python_strip ⟨takeUntilNewline c.data⟩

/-- The decision logic of `handle_channel_post`: `some (title, post_id)` when an
ingestion is attempted, `none` when the post is skipped. -/
def channel_post_decision (libId : Int) (p : ChannelPost) : Option (String × Int) :=
  match p.chat_id with
  | none => none
  | some cid =>
      if cid = libId then
        if p.has_document || p.has_video then
          let title := derived_title p.caption
          if title ≠ "" ∧ title ≠ "Unknown Movie" ∧ p.message_id ≠ 0 then
            some (title, p.message_id)
          else none
        else none
      else none

/-- `handle_channel_post`: skip or run the ingestion synchronizer. -/
def handle_channel_post (libId : Int) (st : BotState) (p : ChannelPost)
    (commit_ok index_ok : Bool) : List Effect × BotState :=
  match channel_post_decision libId p with
  | some (t, pid) => ([], (sync_add_movie_to_db_and_algolia st t pid commit_ok index_ok).2)
  | none => ([], st)

/-- `cmd_start`: register the user, then answer by role. -/
def cmd_start (st : BotState) (uid : Option Int) : List Effect × BotState :=
  match uid with
  | none => ([], st)
  | some u =>
      let st1 := { st with users_database := add_user st.users_database u }
      if u ∈ ADMIN_IDS then ([Effect.adminWelcome], st1)
      else if u ∈ st1.verified_users then ([Effect.verifiedWelcome], st1)
      else ([Effect.joinPrompt], st1)

/-- `process_joined`: the only handler that mutates `verified_users`. -/
def process_joined (st : BotState) (uid : Option Int) : List Effect × BotState :=
  match uid with
  | some u =>
      ([Effect.answer "✅ एक्सेस मिल गया! अब आप फिल्में खोज सकते हैं।",
        Effect.callbackAnswer "✅ Access granted! You can now start searching."],
       { st with verified_users := st.verified_users.insert u })
  | none =>
      ([Effect.answer "✅ एक्सेस मिल गया! अब आप फिल्में खोज सकते हैं।",
        Effect.callbackAnswer "✅ Access granted! You can now start searching."], st)

/-- Text of the empty-result answer of `handle_search`. -/
def no_results_msg (q : String) : String := "❌ कोई मूवी नहीं मिली: " ++ q

/-- Text of the result-listing answer of `handle_search`. -/
def results_msg (n : Nat) (q : String) : String :=
  "🔍 " ++ toString n ++ " परिणाम मिले: " ++ q

/-- `handle_search`: ignore commands and empty text, redirect unverified users
to the gate prompt, drop rate-limited queries, else query the Search Index and
answer with the result listing. -/
def handle_search (st : BotState) (uid : Int) (txt : String) (now : Rat)
    (hits : List AlgoliaHit) (ok : Bool) (sentMsgId : Nat) : List Effect × BotState :=
  if txt = "" ∨ starts_with_slash txt = true then ([], st)
  else if uid ∉ ADMIN_IDS ∧ uid ∉ st.verified_users then cmd_start st (some uid)
  else if (check_rate_limit st.user_sessions uid now).1 = false then
    ([], { st with user_sessions := (check_rate_limit st.user_sessions uid now).2 })
  else
    let st1 := { st with user_sessions := (check_rate_limit st.user_sessions uid now).2 }
    let step := sync_algolia_fuzzy_search st1 (python_strip txt) hits ok
    if step.results = [] then
      (step.effects ++ [Effect.answer (no_results_msg (python_strip txt))], step.state)
    else
      (step.effects ++ [Effect.answer (results_msg step.results.length (python_strip txt))],
       { step.state with
          user_sessions := updSession step.state.user_sessions uid
            (fun s => { s with last_search_msg := some sentMsgId }) })

/-- Parse of `int(callback.data.split('_')[1])`. -/
def parse_post_callback (data : String) : Option Int :=
  match (splitOnChar '_' data.data).get? 1 with
  | none => none
  | some cs => parseIntChars cs

/-- Link construction of `send_movie_link`: pure string formatting from the
configured channel id (with every `-100` removed) and the post id. -/
def make_post_url (libId : Int) (pid : Int) : String :=
  "https://t.me/c/" ++ ((toString libId).replace "-100" "") ++ "/" ++ toString pid

/-- `send_movie_link`: gate, parse the callback data, best-effort delete the
previous result listing, send the constructed link. State is never changed. -/
def send_movie_link (libId : Int) (st : BotState) (uid : Int) (data : String) :
    List Effect × BotState :=
  if uid ∉ ADMIN_IDS ∧ uid ∉ st.verified_users then
    ([Effect.callbackAnswer "🛑 पहुँच वर्जित (Access Denied)।"], st)
  else
    match parse_post_callback data with
    | none => ([Effect.callbackAnswer "❌ गलत चुनाव।"], st)
    | some pid =>
        let delEffs :=
          match getSession st.user_sessions uid with
          | some s =>
              match s.last_search_msg with
              | some m => [Effect.deleteMessage m]
              | none => []
          | none => []
        (delEffs ++ [Effect.sendLink (make_post_url libId pid),
          Effect.callbackAnswer "✅ लिंक भेज दिया गया है।"], st)

/-- The download-link urls among a handler effect list. -/
def link_effects : List Effect → List String
  | [] => []
  | Effect.sendLink u :: rest => u :: link_effects rest
  | _ :: rest => link_effects rest

/-- `cmd_refresh`: admin-gated fixed acknowledgment. -/
def cmd_refresh (st : BotState) (uid : Option Int) : List Effect × BotState :=
  match uid with
  | none => ([], st)
  | some u =>
      if u ∈ ADMIN_IDS then
        ([Effect.answer "✅ Cloud services are active. Auto-indexing is on."], st)
      else ([], st)

/-- `cmd_cleanup_users`: admin-gated clearing of the volatile user directory. -/
def cmd_cleanup_users (st : BotState) (uid : Option Int) : List Effect × BotState :=
  match uid with
  | none => ([], st)
  | some u =>
      if u ∈ ADMIN_IDS then
        ([Effect.answer ("🧹 Cleaned up in-memory user list. Cleared " ++
            toString st.users_database.length ++ " entries.")],
         { st with users_database := [] })
      else ([], st)

/-- `cmd_reload_config`: admin-gated fixed acknowledgment (config is load-time only). -/
def cmd_reload_config (st : BotState) (uid : Option Int) : List Effect × BotState :=
  match uid with
  | none => ([], st)
  | some u =>
      if u ∈ ADMIN_IDS then
        ([Effect.answer "🔄 Config status: Environment variables are static in Render. To apply changes, please manually redeploy the service."], st)
      else ([], st)

/-- `cmd_total_movies`: admin-gated live count query of the Catalog Store. -/
def cmd_total_movies (st : BotState) (uid : Option Int) : List Effect × BotState :=
  match uid with
  | none => ([], st)
  | some u =>
      if u ∈ ADMIN_IDS then
        if st.db_initialized = false then
          ([Effect.answer "❌ Database connection failed."], st)
        else
          ([Effect.answer ("📊 Live Indexed Movies in DB: " ++ toString st.movies.length)], st)
      else ([], st)

/-- The fixed generic reply `cmd_help` sends to non-operators. -/
def help_generic_msg : String :=
  "नमस्ते! फिल्म का नाम टाइप करें और 20 सबसे सटीक परिणाम पाएँगे।"

/-- The admin help text of `cmd_help`. -/
def admin_help_text : String :=
  "🎬 Admin Panel Commands: /stats /broadcast /total_movies /refresh /cleanup_users /reload_config"

/-- `cmd_help`: generic reply for everyone else, command list for operators. -/
def cmd_help (st : BotState) (uid : Option Int) : List Effect × BotState :=
  match uid with
  | none => ([Effect.answer help_generic_msg], st)
  | some u =>
      if u ∈ ADMIN_IDS then ([Effect.answer admin_help_text], st)
      else ([Effect.answer help_generic_msg], st)

/-- Uptime in whole seconds, `int(time.time() - bot_stats["start_time"])`. -/
def uptime_secs (st : BotState) (now : Rat) : Int := Int.floor (now - st.start_time)

/-- The statistics text of `cmd_stats`. -/
def stats_text (st : BotState) (now : Rat) : String :=
  "📊 Bot Statistics (Live):\n\n🔍 Total Searches: " ++ toString st.total_searches ++
  "\n⚡ Algolia Searches: " ++ toString st.algolia_searches ++
  "\n👥 Total Unique Users: " ++ toString st.users_database.length ++
  "\n⏱ Uptime: " ++ toString (uptime_secs st now / 3600) ++ "h " ++
  toString (uptime_secs st now % 3600 / 60) ++ "m"

/-- `cmd_stats`: admin-gated statistics report. -/
def cmd_stats (st : BotState) (uid : Option Int) (now : Rat) : List Effect × BotState :=
  match uid with
  | none => ([], st)
  | some u =>
      if u ∈ ADMIN_IDS then ([Effect.answer (stats_text st now)], st)
      else ([], st)

/-- Substring test used to classify delivery failures (non-overlapping search). -/
def contains_sub (s pat : String) : Bool := decide (2 ≤ (s.splitOn pat).length)

/-- The heuristic failure classifier: the lowercased error text contains
"blocked" or "deactivated". -/
def classify_blocked (msg : String) : Bool :=
  contains_sub msg.toLower "blocked" || contains_sub msg.toLower "deactivated"

/-- The broadcast fan-out loop: one delivery attempt per directory entry, in
order; `outcome u = none` is a successful send, `some e` a raised error text.
Returns (sent count, blocked count, attempt effects). -/
def broadcast_loop : List Int → (Int → Option String) → Nat × Nat × List Effect
  | [], _ => (0, 0, [])
  | u :: rest, outcome =>
      let r := broadcast_loop rest outcome
      match outcome u with
      | none => (r.1 + 1, r.2.1, Effect.sendBroadcast u :: r.2.2)
      | some e =>
          if classify_blocked e then (r.1, r.2.1 + 1, Effect.sendBroadcast u :: r.2.2)
          else (r.1, r.2.1, Effect.sendBroadcast u :: r.2.2)

/-- The final broadcast summary text. -/
def broadcast_summary (total sent blocked : Nat) : String :=
  "✅ Broadcast Complete!\n\n✅ Sent: " ++ toString sent ++
  "\n🚫 Blocked/Failed: " ++ toString (blocked + (total - sent - blocked)) ++
  "\n👥 Total Users: " ++ toString total

/-- The usage message of `cmd_broadcast`. -/
def broadcast_usage_msg : String :=
  "⚠️ Broadcast Usage: Reply to a photo/video with /broadcast or type /broadcast [Your message here]."

/-- The status message announcing the fan-out. -/
def broadcasting_msg (n : Nat) : String :=
  "📡 Broadcasting to " ++ toString n ++ " users..."

/-- `cmd_broadcast`: admin-gated; derive the content from the command text and
the replied-to message, reject empty content and an empty directory, then run
the fan-out loop and edit the status message into the summary. -/
def cmd_broadcast (st : BotState) (uid : Option Int) (msg_text : String)
    (reply : Option ReplyContent) (outcome : Int → Option String) :
    List Effect × BotState :=
  match uid with
  | none => ([], st)
  | some u =>
      if u ∈ ADMIN_IDS then
        let btext0 := python_strip (msg_text.replace "/broadcast" "")
        let bphoto := match reply with | some r => r.photo | none => none
        let bvideo :=
          match reply with
          | some r => match r.photo with | some _ => none | none => r.video
          | none => none
        let btext :=
          match reply with
          | some r =>
              match r.caption with
              | some c => if c ≠ "" ∧ btext0 = "" then c else btext0
              | none => btext0
          | none => btext0
        if btext = "" ∧ bphoto = none ∧ bvideo = none then
          ([Effect.answer broadcast_usage_msg], st)
        else if st.users_database = [] then
          ([Effect.answer "⚠️ No users in database yet."], st)
        else
          let r := broadcast_loop st.users_database outcome
          ([Effect.answer (broadcasting_msg st.users_database.length)] ++ r.2.2 ++
            [Effect.editStatus (broadcast_summary st.users_database.length r.1 r.2.1)], st)
      else ([], st)

/-- The JSON body of the root health route. -/
structure HealthResponse where
  status : String
  service : String
  searches_total : Nat
  uptime_seconds : Int
  database : String
  algolia : String
deriving DecidableEq, Repr

/-- The JSON body of the /health route. -/
structure HealthPing where
  status : String
  timestamp : Rat
  uptime : Int
deriving DecidableEq, Repr

/-- `health_check` (route `/`, methods GET and POST): a pure read of counters
and the two initialization flags; the state is returned untouched. -/
def health_check (st : BotState) (now : Rat) : HealthResponse × BotState :=
  ({ status := "ok"
     service := "telegram_bot_poller"
     searches_total := st.total_searches
     uptime_seconds := uptime_secs st now
     database := if st.db_initialized then "connected" else "disconnected"
     algolia := if st.algolia_initialized then "connected" else "disconnected" }, st)

/-- `health_endpoint` (route `/health`, method GET): liveness only. -/
def health_endpoint (st : BotState) (now : Rat) : HealthPing × BotState :=
  ({ status := "healthy", timestamp := now, uptime := uptime_secs st now }, st)

/-- Every inbound event the dispatcher routes to a handler. -/
inductive Event where
  | startCmd (uid : Option Int)
  | joinedCallback (uid : Option Int)
  | searchMsg (uid : Int) (txt : String) (now : Rat) (hits : List AlgoliaHit)
      (ok : Bool) (sentMsgId : Nat)
  | postCallback (uid : Int) (data : String)
  | channelPost (p : ChannelPost) (commit_ok index_ok : Bool)
  | refreshCmd (uid : Option Int)
  | cleanupUsersCmd (uid : Option Int)
  | reloadConfigCmd (uid : Option Int)
  | totalMoviesCmd (uid : Option Int)
  | helpCmd (uid : Option Int)
  | statsCmd (uid : Option Int) (now : Rat)
  | broadcastCmd (uid : Option Int) (msg_text : String) (reply : Option ReplyContent)
      (outcome : Int → Option String)

/-- The dispatcher: route an event to its handler. -/
def dispatch (libId : Int) (st : BotState) : Event → List Effect × BotState
  | .startCmd uid => cmd_start st uid
  | .joinedCallback uid => process_joined st uid
  | .searchMsg uid txt now hits ok sentMsgId => handle_search st uid txt now hits ok sentMsgId
  | .postCallback uid data => send_movie_link libId st uid data
  | .channelPost p c i => handle_channel_post libId st p c i
  | .refreshCmd uid => cmd_refresh st uid
  | .cleanupUsersCmd uid => cmd_cleanup_users st uid
  | .reloadConfigCmd uid => cmd_reload_config st uid
  | .totalMoviesCmd uid => cmd_total_movies st uid
  | .helpCmd uid => cmd_help st uid
  | .statsCmd uid now => cmd_stats st uid now
  | .broadcastCmd uid mt rp oc => cmd_broadcast st uid mt rp oc

/-- A fully initialized empty state, used to instantiate witnesses. -/
def initState : BotState :=
  { user_sessions := [], verified_users := [], users_database := []
    total_searches := 0, algolia_searches := 0, start_time := 0
    movies := [], next_movie_id := 1, index := []
    db_initialized := true, algolia_initialized := true }

/-- A state already holding the catalog row for post 501. -/
def stDup : BotState :=
  { initState with
      movies := [{ id := 1, title := "Inception 2010", post_id := 501 }]
      next_movie_id := 2 }

/-- A state in which user 5 has completed the join gate. -/
def stVerified : BotState :=
  { initState with verified_users := [5] }

/-- The channel post of the spec scenario: caption with two lines, a document
attachment, message id 501, posted in the default library channel. -/
def inceptionPost : ChannelPost :=
  { chat_id := some CORRECT_LIBRARY_CHANNEL_ID
    has_document := true
    has_video := false
    caption := some "Inception 2010\nHD"
    message_id := 501 }

/-- A sample hit list: one full hit, one untitled hit, one hit without a post
id, one hit with the falsy post id 0. -/
def hitsSample : List AlgoliaHit :=
  [{ title := some "Inception 2010", post_id := some 501 },
   { title := none, post_id := some 7 },
   { title := some "No Post", post_id := none },
   { title := some "Zero", post_id := some 0 }]

/-- A sample delivery-outcome oracle: user 2 raises a blocked error, user 3 a
generic error, everyone else succeeds. -/
def ocSample : Int → Option String := fun u =>
  if u = 2 then some "Forbidden: bot was blocked by the user"
  else if u = 3 then some "Bad Request: chat not found" else none

/-! Section: Helper lemmas -/

theorem countMovies_zero_any (st : BotState) (pid : Int) (h : countMovies st pid = 0) :
    st.movies.any (fun m => decide (m.post_id = pid)) = false := by
  rw [countMovies, List.length_eq_zero, List.filter_eq_nil_iff] at h
  rw [List.any_eq_false]
  intro m hm
  simpa using h m hm

theorem sync_add_dup (st : BotState) (t : String) (pid : Int) (c i : Bool)
    (h : st.movies.any (fun m => decide (m.post_id = pid)) = true) :
    sync_add_movie_to_db_and_algolia st t pid c i = (false, st) := by
  unfold sync_add_movie_to_db_and_algolia
  by_cases h1 : st.algolia_initialized = false ∨ st.db_initialized = false
  · rw [if_pos h1]
  · rw [if_neg h1, if_pos h]

theorem sync_add_fresh_state (st : BotState) (t : String) (pid : Int) (i : Bool)
    (hdb : st.db_initialized = true) (halg : st.algolia_initialized = true)
    (h0 : st.movies.any (fun m => decide (m.post_id = pid)) = false) :
    (sync_add_movie_to_db_and_algolia st t pid true i).2 =
      { st with
          movies := st.movies ++
            [{ id := st.next_movie_id, title := python_strip t, post_id := pid }]
          next_movie_id := st.next_movie_id + 1
          index := st.index ++
            (if i then [{ objectID := st.next_movie_id, title := python_strip t, post_id := pid }]
             else []) } := by
  unfold sync_add_movie_to_db_and_algolia
  rw [if_neg (by simp [hdb, halg]), if_neg (by simp [h0]), if_neg (by simp)]
  cases i <;> simp

theorem sync_add_fresh_flag (st : BotState) (t : String) (pid : Int) (i : Bool)
    (hdb : st.db_initialized = true) (halg : st.algolia_initialized = true)
    (h0 : st.movies.any (fun m => decide (m.post_id = pid)) = false) :
    (sync_add_movie_to_db_and_algolia st t pid true i).1 = i := by
  unfold sync_add_movie_to_db_and_algolia
  rw [if_neg (by simp [hdb, halg]), if_neg (by simp [h0]), if_neg (by simp)]
  cases i <;> simp

theorem ingest_attempts_fixed (st : BotState) (pid : Int)
    (h : ∀ (t : String) (c i : Bool), sync_add_movie_to_db_and_algolia st t pid c i = (false, st)) :
    ∀ as : List (String × Bool × Bool), ingest_attempts st pid as = st := by
  intro as
  induction as with
  | nil => rfl
  | cons a rest ih =>
      obtain ⟨t, c, i⟩ := a
      rw [ingest_attempts, h t c i, ih]

/-! Section: Claims C1 and C2: ingestion idempotence and the non-atomic two-store write -/

/-- Claim C1: duplicate-post protection makes ingestion idempotent. If the
Catalog Store already holds a row with the given post id, the ingestion returns
false and changes nothing; starting from a state with no row and no document
for the post id, a first (committed) submission followed by a second submission
of the same post id leaves exactly one catalog row and at most one search
document, the second submission being a no-op. -/
theorem ingestion_idempotent :
    (∀ (st : BotState) (t : String) (pid : Int) (c i : Bool),
        st.movies.any (fun m => decide (m.post_id = pid)) = true →
        sync_add_movie_to_db_and_algolia st t pid c i = (false, st)) ∧
    (∀ (st : BotState) (t₁ t₂ : String) (pid : Int) (i₁ c₂ i₂ : Bool),
        st.db_initialized = true → st.algolia_initialized = true →
        countMovies st pid = 0 → countDocs st pid = 0 →
        sync_add_movie_to_db_and_algolia
            (sync_add_movie_to_db_and_algolia st t₁ pid true i₁).2 t₂ pid c₂ i₂ =
          (false, (sync_add_movie_to_db_and_algolia st t₁ pid true i₁).2) ∧
        countMovies (sync_add_movie_to_db_and_algolia st t₁ pid true i₁).2 pid = 1 ∧
        countDocs (sync_add_movie_to_db_and_algolia st t₁ pid true i₁).2 pid ≤ 1) := by
  constructor
  · exact fun st t pid c i h => sync_add_dup st t pid c i h
  · intro st t₁ t₂ pid i₁ c₂ i₂ hdb halg h0 hd0
    have h0' := countMovies_zero_any st pid h0
    have hstate := sync_add_fresh_state st t₁ pid i₁ hdb halg h0'
    have hdup1 : (sync_add_movie_to_db_and_algolia st t₁ pid true i₁).2.movies.any
        (fun m => decide (m.post_id = pid)) = true := by
      rw [hstate]
      simp
    refine ⟨sync_add_dup _ t₂ pid c₂ i₂ hdup1, ?_, ?_⟩
    · rw [countMovies] at h0 ⊢
      rw [hstate]
      simp [List.filter_append, h0]
    · rw [countDocs] at hd0 ⊢
      rw [hstate]
      cases i₁ <;> simp [List.filter_append, hd0]

/-- Witness for C1: concrete duplicate suppression on `stDup`, and the
two-submission scenario for post 501 starting from the empty catalog. -/
theorem ingestion_idempotent_witness :
    (sync_add_movie_to_db_and_algolia stDup "Inception 2010" 501 true true = (false, stDup)) ∧
    (sync_add_movie_to_db_and_algolia
        (sync_add_movie_to_db_and_algolia initState "Inception 2010" 501 true true).2
        "Inception 2010" 501 true true =
      (false, (sync_add_movie_to_db_and_algolia initState "Inception 2010" 501 true true).2) ∧
     countMovies (sync_add_movie_to_db_and_algolia initState "Inception 2010" 501 true true).2 501 = 1 ∧
     countDocs (sync_add_movie_to_db_and_algolia initState "Inception 2010" 501 true true).2 501 ≤ 1) :=
  ⟨ingestion_idempotent.1 stDup "Inception 2010" 501 true true (by decide),
   ingestion_idempotent.2 initState "Inception 2010" "Inception 2010" 501 true true true
     (by decide) (by decide) (by decide) (by decide)⟩

/-- Claim C2: when the Search Index write fails after the Catalog Store commit,
the call reports failure, the committed row survives (the rollback does not
undo it), no search document exists for the post id, and every later ingestion
attempt for the same post id is a no-op suppressed by the duplicate check. -/
theorem ingestion_partial_write (st : BotState) (t : String) (pid : Int)
    (hdb : st.db_initialized = true) (halg : st.algolia_initialized = true)
    (h0 : countMovies st pid = 0) (hd0 : countDocs st pid = 0) :
    (sync_add_movie_to_db_and_algolia st t pid true false).1 = false ∧
    countMovies (sync_add_movie_to_db_and_algolia st t pid true false).2 pid = 1 ∧
    (sync_add_movie_to_db_and_algolia st t pid true false).2.index = st.index ∧
    countDocs (sync_add_movie_to_db_and_algolia st t pid true false).2 pid = 0 ∧
    (∀ (t₂ : String) (c i : Bool),
        sync_add_movie_to_db_and_algolia
            (sync_add_movie_to_db_and_algolia st t pid true false).2 t₂ pid c i =
          (false, (sync_add_movie_to_db_and_algolia st t pid true false).2)) ∧
    (∀ as : List (String × Bool × Bool),
        ingest_attempts (sync_add_movie_to_db_and_algolia st t pid true false).2 pid as =
          (sync_add_movie_to_db_and_algolia st t pid true false).2) := by
  have h0' := countMovies_zero_any st pid h0
  have hstate := sync_add_fresh_state st t pid false hdb halg h0'
  have hdup : (sync_add_movie_to_db_and_algolia st t pid true false).2.movies.any
      (fun m => decide (m.post_id = pid)) = true := by
    rw [hstate]
    simp
  have hsupp : ∀ (t₂ : String) (c i : Bool),
      sync_add_movie_to_db_and_algolia
          (sync_add_movie_to_db_and_algolia st t pid true false).2 t₂ pid c i =
        (false, (sync_add_movie_to_db_and_algolia st t pid true false).2) :=
    fun t₂ c i => sync_add_dup _ t₂ pid c i hdup
  refine ⟨sync_add_fresh_flag st t pid false hdb halg h0', ?_, ?_, ?_, hsupp, ?_⟩
  · rw [countMovies] at h0 ⊢
    rw [hstate]
    simp [List.filter_append, h0]
  · rw [hstate]
    simp
  · rw [countDocs] at hd0 ⊢
    rw [hstate]
    simp [List.filter_append, hd0]
  · exact ingest_attempts_fixed _ pid hsupp

/-- Witness for C2: the failed index write for post 501 from the empty state,
followed by concrete suppressed retries. -/
theorem ingestion_partial_write_witness :
    (sync_add_movie_to_db_and_algolia initState "Inception 2010" 501 true false).1 = false ∧
    countMovies (sync_add_movie_to_db_and_algolia initState "Inception 2010" 501 true false).2 501 = 1 ∧
    (sync_add_movie_to_db_and_algolia initState "Inception 2010" 501 true false).2.index = initState.index ∧
    countDocs (sync_add_movie_to_db_and_algolia initState "Inception 2010" 501 true false).2 501 = 0 ∧
    (sync_add_movie_to_db_and_algolia
        (sync_add_movie_to_db_and_algolia initState "Inception 2010" 501 true false).2
        "Inception 2010" 501 true true =
      (false, (sync_add_movie_to_db_and_algolia initState "Inception 2010" 501 true false).2)) ∧
    ingest_attempts (sync_add_movie_to_db_and_algolia initState "Inception 2010" 501 true false).2 501
        [("Inception 2010", true, true), ("Inception 2010", true, false)] =
      (sync_add_movie_to_db_and_algolia initState "Inception 2010" 501 true false).2 :=
  ⟨(ingestion_partial_write initState "Inception 2010" 501 (by decide) (by decide) (by decide)
      (by decide)).1,
   (ingestion_partial_write initState "Inception 2010" 501 (by decide) (by decide) (by decide)
      (by decide)).2.1,
   (ingestion_partial_write initState "Inception 2010" 501 (by decide) (by decide) (by decide)
      (by decide)).2.2.1,
   (ingestion_partial_write initState "Inception 2010" 501 (by decide) (by decide) (by decide)
      (by decide)).2.2.2.1,
   (ingestion_partial_write initState "Inception 2010" 501 (by decide) (by decide) (by decide)
      (by decide)).2.2.2.2.1 "Inception 2010" true true,
   (ingestion_partial_write initState "Inception 2010" 501 (by decide) (by decide) (by decide)
      (by decide)).2.2.2.2.2 [("Inception 2010", true, true), ("Inception 2010", true, false)]⟩

/-! Section: Claim C3: channel-post ingestion contract -/

/-- Counterexample to C3 as stated: a post from the library channel with a
document attachment and the derivable title "Inception 2010", but message id 0;
the claim says an ingestion is attempted, yet the handler skips it because the
code additionally requires a truthy (nonzero) post id. -/
theorem channel_post_contract_cex :
    derived_title (some "Inception 2010\nHD") = "Inception 2010" ∧
    derived_title (some "Inception 2010\nHD") ≠ "" ∧
    derived_title (some "Inception 2010\nHD") ≠ "Unknown Movie" ∧
    channel_post_decision CORRECT_LIBRARY_CHANNEL_ID
      { chat_id := some CORRECT_LIBRARY_CHANNEL_ID, has_document := true, has_video := false,
        caption := some "Inception 2010\nHD", message_id := 0 } = none := by
  refine ⟨by decide, by decide, by decide, by decide⟩

/-- Claim C3 (amended): ingestion is skipped when the post is not from the
library channel, carries neither a document nor a video, derives an empty or
placeholder title, or has message id zero; otherwise exactly one ingestion is
attempted with the derived title and the post's own message id. -/
theorem channel_post_contract (libId : Int) (p : ChannelPost) :
    ((p.chat_id ≠ some libId ∨ (p.has_document = false ∧ p.has_video = false) ∨
        derived_title p.caption = "" ∨ derived_title p.caption = "Unknown Movie" ∨
        p.message_id = 0) →
      channel_post_decision libId p = none) ∧
    (p.chat_id = some libId → (p.has_document = true ∨ p.has_video = true) →
      derived_title p.caption ≠ "" → derived_title p.caption ≠ "Unknown Movie" →
      p.message_id ≠ 0 →
      channel_post_decision libId p = some (derived_title p.caption, p.message_id)) := by
  constructor
  · intro h
    unfold channel_post_decision
    cases hch : p.chat_id with
    | none => rfl
    | some cid =>
        dsimp only
        by_cases hc : cid = libId
        · rw [if_pos hc]
          by_cases hd : (p.has_document || p.has_video) = true
          · rw [if_pos hd]
            rw [if_neg]
            intro hcond
            rcases h with h | h | h | h | h
            · exact h (hch ▸ congrArg some hc)
            · rw [h.1, h.2] at hd
              simp at hd
            · exact hcond.1 h
            · exact hcond.2.1 h
            · exact hcond.2.2 h
          · rw [if_neg hd]
        · rw [if_neg hc]
  · intro hch hatt ht1 ht2 hm
    unfold channel_post_decision
    rw [hch]
    dsimp only
    rw [if_pos rfl]
    have hd : (p.has_document || p.has_video) = true := by
      rcases hatt with h | h <;> simp [h]
    rw [if_pos hd, if_pos ⟨ht1, ht2, hm⟩]

/-- Witness for C3 (amended): the spec scenario, caption "Inception 2010\nHD"
with a document attachment and message id 501 in the library channel. -/
theorem channel_post_contract_witness :
    channel_post_decision CORRECT_LIBRARY_CHANNEL_ID inceptionPost =
      some (derived_title inceptionPost.caption, inceptionPost.message_id) :=
  (channel_post_contract CORRECT_LIBRARY_CHANNEL_ID inceptionPost).2 rfl (Or.inl rfl)
    (by decide) (by decide) (by decide)

/-! Section: Claim C7: link determinism -/

theorem link_effects_append (xs ys : List Effect) :
    link_effects (xs ++ ys) = link_effects xs ++ link_effects ys := by
  induction xs with
  | nil => rfl
  | cons x rest ih => cases x <;> simp [link_effects, ih]

/-- Claim C7: the generated download link is a pure, deterministic function of
the configured library channel id and the post id: it is exactly the fixed
prefix, the channel id rendered with every "-100" removed, a slash, and the
post id; any gated invocation of `send_movie_link`, from any state and any
user, emits exactly that one link for the parsed post id. -/
theorem link_determinism :
    (∀ (cid pid : Int),
        make_post_url cid pid =
          "https://t.me/c/" ++ ((toString cid).replace "-100" "") ++ "/" ++ toString pid) ∧
    (∀ (libId : Int) (st : BotState) (uid : Int) (data : String) (pid : Int),
        parse_post_callback data = some pid →
        (uid ∈ ADMIN_IDS ∨ uid ∈ st.verified_users) →
        link_effects (send_movie_link libId st uid data).1 = [make_post_url libId pid]) := by
  constructor
  · intro cid pid
    rfl
  · intro libId st uid data pid hp hg
    unfold send_movie_link
    rw [if_neg (fun hand => hg.elim hand.1 hand.2), hp]
    cases hs : getSession st.user_sessions uid with
    | none => simp [link_effects_append, link_effects]
    | some s =>
        cases hm : s.last_search_msg with
        | none => simp [hm, link_effects_append, link_effects]
        | some m => simp [hm, link_effects_append, link_effects]

/-- Witness for C7: verified user 5 selecting callback data "post_501" in the
default library channel yields exactly the link for post 501. -/
theorem link_determinism_witness :
    link_effects (send_movie_link CORRECT_LIBRARY_CHANNEL_ID stVerified 5 "post_501").1 =
      [make_post_url CORRECT_LIBRARY_CHANNEL_ID 501] :=
  link_determinism.2 CORRECT_LIBRARY_CHANNEL_ID stVerified 5 "post_501" 501 (by decide)
    (Or.inr (by decide))

/-! Section: Claim C9: health surface contract -/

/-- Claim C9: both HTTP endpoints return a success body regardless of
dependency state: the root route reports status "ok" with the service name, the
search counter, the uptime, and purely informational database/algolia fields
derived from the initialization flags; the /health route reports "healthy" with
timestamp and uptime; neither handler mutates any bot state. -/
theorem health_surface_contract (st : BotState) (now : Rat) :
    (health_check st now).1.status = "ok" ∧
    (health_check st now).1.service = "telegram_bot_poller" ∧
    (health_check st now).1.searches_total = st.total_searches ∧
    (health_check st now).1.uptime_seconds = uptime_secs st now ∧
    (health_check st now).1.database =
      (if st.db_initialized then "connected" else "disconnected") ∧
    (health_check st now).1.algolia =
      (if st.algolia_initialized then "connected" else "disconnected") ∧
    (health_check st now).2 = st ∧
    (health_endpoint st now).1.status = "healthy" ∧
    (health_endpoint st now).1.timestamp = now ∧
    (health_endpoint st now).1.uptime = uptime_secs st now ∧
    (health_endpoint st now).2 = st :=
  ⟨rfl, rfl, rfl, rfl, rfl, rfl, rfl, rfl, rfl, rfl, rfl⟩

/-! Section: Claim C10: search-hit filtering -/

theorem filter_hits_length (hits : List AlgoliaHit) :
    (filter_hits hits).length ≤ hits.length := by
  induction hits with
  | nil => simp [filter_hits]
  | cons h rest ih =>
      simp only [filter_hits]
      cases hp : h.post_id with
      | none => exact le_trans ih (Nat.le_succ _)
      | some p =>
          by_cases hz : p ≠ 0
          · simp only [if_pos hz, List.length_cons]
            exact Nat.succ_le_succ ih
          · simp only [if_neg hz]
            exact le_trans ih (Nat.le_succ _)

theorem filter_hits_mem (hits : List AlgoliaHit) (r : SearchResult)
    (hr : r ∈ filter_hits hits) :
    r.post_id ≠ 0 ∧
    ∃ h ∈ hits, h.post_id = some r.post_id ∧ r.title = h.title.getD "Unknown Movie" := by
  induction hits with
  | nil => simp [filter_hits] at hr
  | cons h rest ih =>
      simp only [filter_hits] at hr
      cases hp : h.post_id with
      | none =>
          rw [hp] at hr
          dsimp only at hr
          obtain ⟨hz, h', hh', hrest⟩ := ih hr
          exact ⟨hz, h', List.mem_cons_of_mem _ hh', hrest⟩
      | some p =>
          rw [hp] at hr
          dsimp only at hr
          by_cases hz : p ≠ 0
          · rw [if_pos hz] at hr
            rcases List.mem_cons.mp hr with heq | htail
            · subst heq
              exact ⟨hz, h, List.mem_cons_self _ _, hp, rfl⟩
            · obtain ⟨hz', h', hh', hrest⟩ := ih htail
              exact ⟨hz', h', List.mem_cons_of_mem _ hh', hrest⟩
          · rw [if_neg hz] at hr
            obtain ⟨hz', h', hh', hrest⟩ := ih hr
            exact ⟨hz', h', List.mem_cons_of_mem _ hh', hrest⟩

theorem sync_search_results_cases (st : BotState) (q : String) (hits : List AlgoliaHit)
    (ok : Bool) :
    (sync_algolia_fuzzy_search st q hits ok).results = [] ∨
    (sync_algolia_fuzzy_search st q hits ok).results = filter_hits hits := by
  unfold sync_algolia_fuzzy_search
  split_ifs <;> simp

/-- Claim C10: the fuzzy-search operation returns at most `limit` results
(given the Search Index honors the requested page size), every returned result
carries a nonzero post id taken from some hit, a hit without a truthy post id
contributes nothing, and a hit without a title is rendered "Unknown Movie". -/
theorem search_hit_filtering (st : BotState) (q : String) (hits : List AlgoliaHit)
    (ok : Bool) (limit : Nat) (hlim : hits.length ≤ limit) :
    (sync_algolia_fuzzy_search st q hits ok).results.length ≤ limit ∧
    (∀ r ∈ (sync_algolia_fuzzy_search st q hits ok).results,
        r.post_id ≠ 0 ∧
        ∃ h ∈ hits, h.post_id = some r.post_id ∧ r.title = h.title.getD "Unknown Movie") ∧
    (ok = true → st.algolia_initialized = true →
        (sync_algolia_fuzzy_search st q hits ok).results = filter_hits hits) ∧
    (∀ (h : AlgoliaHit) (rest : List AlgoliaHit),
        h.post_id = none ∨ h.post_id = some 0 →
        filter_hits (h :: rest) = filter_hits rest) ∧
    (∀ (p : Int) (rest : List AlgoliaHit), p ≠ 0 →
        filter_hits ({ title := none, post_id := some p } :: rest) =
          { title := "Unknown Movie", post_id := p } :: filter_hits rest) := by
  refine ⟨?_, ?_, ?_, ?_, ?_⟩
  · rcases sync_search_results_cases st q hits ok with h | h <;> rw [h]
    · simp
    · exact le_trans (filter_hits_length hits) hlim
  · intro r hr
    rcases sync_search_results_cases st q hits ok with h | h <;> rw [h] at hr
    · simp at hr
    · exact filter_hits_mem hits r hr
  · intro hok hinit
    unfold sync_algolia_fuzzy_search
    rw [if_neg (by simp [hinit]), if_pos hok]
  · intro h rest hdrop
    simp only [filter_hits]
    rcases hdrop with h0 | h0 <;> simp [h0]
  · intro p rest hz
    simp only [filter_hits]
    rw [if_pos hz]
    rfl

/-- Witness for C10: the sample hit list against the default limit of 20, with
the drop and title-default conjuncts instantiated at concrete hits. -/
theorem search_hit_filtering_witness :
    (sync_algolia_fuzzy_search initState "incep" hitsSample true).results.length ≤
      DEFAULT_SEARCH_LIMIT ∧
    (sync_algolia_fuzzy_search initState "incep" hitsSample true).results =
      filter_hits hitsSample ∧
    filter_hits [{ title := some "No Post", post_id := none }] = filter_hits [] ∧
    filter_hits [{ title := some "Zero", post_id := some 0 }] = filter_hits [] ∧
    filter_hits [{ title := none, post_id := some 7 }] =
      [{ title := "Unknown Movie", post_id := 7 }] :=
  ⟨(search_hit_filtering initState "incep" hitsSample true DEFAULT_SEARCH_LIMIT (by decide)).1,
   (search_hit_filtering initState "incep" hitsSample true DEFAULT_SEARCH_LIMIT
      (by decide)).2.2.1 rfl rfl,
   (search_hit_filtering initState "incep" hitsSample true DEFAULT_SEARCH_LIMIT
      (by decide)).2.2.2.1 { title := some "No Post", post_id := none } [] (Or.inl rfl),
   (search_hit_filtering initState "incep" hitsSample true DEFAULT_SEARCH_LIMIT
      (by decide)).2.2.2.1 { title := some "Zero", post_id := some 0 } [] (Or.inr rfl),
   (search_hit_filtering initState "incep" hitsSample true DEFAULT_SEARCH_LIMIT
      (by decide)).2.2.2.2 7 [] (by decide)⟩

/-! Section: Session and rate-limit lemmas -/

theorem getSession_updSession_self (ss : List (Int × Session)) (uid : Int)
    (f : Session → Session) :
    getSession (updSession ss uid f) uid =
      some (f ((getSession ss uid).getD { last_action := none, last_search_msg := none })) := by
  induction ss with
  | nil => simp [updSession, getSession]
  | cons p rest ih =>
      obtain ⟨k, s⟩ := p
      by_cases h : k = uid
      · simp [updSession, getSession, h]
      · simp [updSession, getSession, h, ih]

theorem check_rate_limit_false_sessions (ss : List (Int × Session)) (uid : Int) (now : Rat)
    (h : (check_rate_limit ss uid now).1 = false) :
    (check_rate_limit ss uid now).2 = ss := by
  cases hg : getSession ss uid with
  | none =>
      unfold check_rate_limit at h
      rw [hg] at h
      simp at h
  | some s =>
      unfold check_rate_limit at h ⊢
      rw [hg] at h ⊢
      dsimp only at h ⊢
      split_ifs at h ⊢
      rfl

theorem check_rate_limit_true_sessions (ss : List (Int × Session)) (uid : Int) (now : Rat)
    (h : (check_rate_limit ss uid now).1 = true) :
    (check_rate_limit ss uid now).2 =
      updSession ss uid (fun s => { s with last_action := some now }) := by
  cases hg : getSession ss uid with
  | none =>
      unfold check_rate_limit
      rw [hg]
  | some s =>
      unfold check_rate_limit at h ⊢
      rw [hg] at h ⊢
      dsimp only at h ⊢
      split_ifs at h ⊢
      rfl

theorem check_rate_limit_blocks (ss : List (Int × Session)) (uid : Int) (s : Session)
    (t₁ t₂ : Rat) (hg : getSession ss uid = some s) (ha : s.last_action = some t₁)
    (hlt : t₂ - t₁ < RATE_LIMIT_SECONDS) :
    check_rate_limit ss uid t₂ = (false, ss) := by
  unfold check_rate_limit
  rw [hg]
  dsimp only
  rw [ha]
  have hc : t₂ - (some t₁).getD 0 < RATE_LIMIT_SECONDS := by simpa using hlt
  rw [if_pos hc]

theorem search_step_sessions (st : BotState) (q : String) (hits : List AlgoliaHit)
    (ok : Bool) :
    (sync_algolia_fuzzy_search st q hits ok).state.user_sessions = st.user_sessions := by
  unfold sync_algolia_fuzzy_search
  split_ifs <;> rfl

theorem search_step_verified (st : BotState) (q : String) (hits : List AlgoliaHit)
    (ok : Bool) :
    (sync_algolia_fuzzy_search st q hits ok).state.verified_users = st.verified_users := by
  unfold sync_algolia_fuzzy_search
  split_ifs <;> rfl

theorem search_step_effects (st : BotState) (q : String) (hits : List AlgoliaHit)
    (ok : Bool) (h : st.algolia_initialized = true) :
    (sync_algolia_fuzzy_search st q hits ok).effects = [Effect.searchCall q] := by
  unfold sync_algolia_fuzzy_search
  rw [if_neg (by simp [h])]
  split_ifs <;> rfl

theorem cmd_start_verified (st : BotState) (uid : Option Int) :
    (cmd_start st uid).2.verified_users = st.verified_users := by
  cases uid with
  | none => rfl
  | some u =>
      unfold cmd_start
      dsimp only
      split_ifs <;> rfl

theorem handle_search_rate_limited (st : BotState) (uid : Int) (txt : String) (now : Rat)
    (hits : List AlgoliaHit) (ok : Bool) (m : Nat)
    (h1 : ¬(txt = "" ∨ starts_with_slash txt = true))
    (h2 : ¬(uid ∉ ADMIN_IDS ∧ uid ∉ st.verified_users))
    (h3 : (check_rate_limit st.user_sessions uid now).1 = false) :
    handle_search st uid txt now hits ok m = ([], st) := by
  unfold handle_search
  rw [if_neg h1, if_neg h2, if_pos h3, check_rate_limit_false_sessions _ _ _ h3]

theorem handle_search_accepted (st : BotState) (uid : Int) (txt : String) (now : Rat)
    (hits : List AlgoliaHit) (ok : Bool) (m : Nat)
    (h1 : ¬(txt = "" ∨ starts_with_slash txt = true))
    (h2 : ¬(uid ∉ ADMIN_IDS ∧ uid ∉ st.verified_users))
    (h3 : (check_rate_limit st.user_sessions uid now).1 = true) :
    (∃ s : Session,
        getSession (handle_search st uid txt now hits ok m).2.user_sessions uid = some s ∧
        s.last_action = some now) ∧
    (handle_search st uid txt now hits ok m).2.verified_users = st.verified_users ∧
    (st.algolia_initialized = true →
        Effect.searchCall (python_strip txt) ∈ (handle_search st uid txt now hits ok m).1) := by
  unfold handle_search
  rw [if_neg h1, if_neg h2, if_neg (by simp [h3]), check_rate_limit_true_sessions _ _ _ h3]
  dsimp only
  split_ifs with hres
  · refine ⟨?_, ?_, ?_⟩
    · simp only [search_step_sessions, getSession_updSession_self]
      exact ⟨_, rfl, rfl⟩
    · rw [search_step_verified]
    · intro halg
      rw [List.mem_append, search_step_effects]
      · exact Or.inl (List.mem_singleton.mpr rfl)
      · exact halg
  · refine ⟨?_, ?_, ?_⟩
    · simp only [getSession_updSession_self, search_step_sessions, Option.getD_some]
      exact ⟨_, rfl, rfl⟩
    · show (sync_algolia_fuzzy_search _ _ _ _).state.verified_users = st.verified_users
      rw [search_step_verified]
    · intro halg
      rw [List.mem_append, search_step_effects]
      · exact Or.inl (List.mem_singleton.mpr rfl)
      · exact halg

/-! Section: Claim C4: rate limiting -/

/-- Claim C4: when a user's search query is accepted at time t₁ (the search
call is issued), a second query from the same user arriving less than
`RATE_LIMIT_SECONDS` later is dropped: the handler produces no effect at all —
no Search Index call, no response message — and leaves the state unchanged, so
exactly one of the two queries is processed. -/
theorem rate_limiting (st : BotState) (uid : Int) (txt₁ txt₂ : String) (t₁ t₂ : Rat)
    (hits₁ hits₂ : List AlgoliaHit) (ok₁ ok₂ : Bool) (m₁ m₂ : Nat)
    (ha1 : ¬(txt₁ = "" ∨ starts_with_slash txt₁ = true))
    (ha2 : ¬(txt₂ = "" ∨ starts_with_slash txt₂ = true))
    (hg : uid ∈ ADMIN_IDS ∨ uid ∈ st.verified_users)
    (halg : st.algolia_initialized = true)
    (hacc : (check_rate_limit st.user_sessions uid t₁).1 = true)
    (hlt : t₂ - t₁ < RATE_LIMIT_SECONDS) :
    Effect.searchCall (python_strip txt₁) ∈ (handle_search st uid txt₁ t₁ hits₁ ok₁ m₁).1 ∧
    handle_search (handle_search st uid txt₁ t₁ hits₁ ok₁ m₁).2 uid txt₂ t₂ hits₂ ok₂ m₂ =
      ([], (handle_search st uid txt₁ t₁ hits₁ ok₁ m₁).2) := by
  have h2 : ¬(uid ∉ ADMIN_IDS ∧ uid ∉ st.verified_users) := fun hand => hg.elim hand.1 hand.2
  obtain ⟨⟨s, hgs, hact⟩, hver, heff⟩ :=
    handle_search_accepted st uid txt₁ t₁ hits₁ ok₁ m₁ ha1 h2 hacc
  refine ⟨heff halg, ?_⟩
  have h2' : ¬(uid ∉ ADMIN_IDS ∧
      uid ∉ (handle_search st uid txt₁ t₁ hits₁ ok₁ m₁).2.verified_users) := by
    rw [hver]
    exact h2
  have hblock := check_rate_limit_blocks _ uid s t₁ t₂ hgs hact hlt
  exact handle_search_rate_limited _ uid txt₂ t₂ hits₂ ok₂ m₂ ha2 h2' (by rw [hblock])

/-- Witness for C4: verified user 5 sends "incep" twice at the same instant;
the first issues the search call, the second is a complete no-op. -/
theorem rate_limiting_witness :
    Effect.searchCall (python_strip "incep") ∈
      (handle_search stVerified 5 "incep" 0 [] true 0).1 ∧
    handle_search (handle_search stVerified 5 "incep" 0 [] true 0).2 5 "incep" 0 [] true 0 =
      ([], (handle_search stVerified 5 "incep" 0 [] true 0).2) :=
  rate_limiting stVerified 5 "incep" "incep" 0 0 [] [] true true 0 0 (by decide) (by decide)
    (Or.inr (by decide)) (by decide) (by decide) (by norm_num [RATE_LIMIT_SECONDS])

/-! Section: Per-handler state lemmas for the gate invariant -/

theorem handle_search_verified (st : BotState) (uid : Int) (txt : String) (now : Rat)
    (hits : List AlgoliaHit) (ok : Bool) (m : Nat) :
    (handle_search st uid txt now hits ok m).2.verified_users = st.verified_users := by
  unfold handle_search
  split_ifs with h1 h2 h3
  · rfl
  · exact cmd_start_verified st (some uid)
  · rfl
  · dsimp only
    split_ifs with hres
    · exact search_step_verified _ _ _ _
    · exact search_step_verified _ _ _ _

theorem send_movie_link_state (libId : Int) (st : BotState) (uid : Int) (data : String) :
    (send_movie_link libId st uid data).2 = st := by
  unfold send_movie_link
  split_ifs
  · rfl
  · cases parse_post_callback data <;> rfl

theorem sync_add_verified (st : BotState) (t : String) (pid : Int) (c i : Bool) :
    (sync_add_movie_to_db_and_algolia st t pid c i).2.verified_users = st.verified_users := by
  unfold sync_add_movie_to_db_and_algolia
  split_ifs <;> rfl

theorem handle_channel_post_verified (libId : Int) (st : BotState) (p : ChannelPost)
    (c i : Bool) :
    (handle_channel_post libId st p c i).2.verified_users = st.verified_users := by
  unfold handle_channel_post
  cases channel_post_decision libId p with
  | none => rfl
  | some ti =>
      obtain ⟨t, pid⟩ := ti
      exact sync_add_verified st t pid c i

theorem cmd_refresh_state (st : BotState) (uid : Option Int) :
    (cmd_refresh st uid).2 = st := by
  cases uid with
  | none => rfl
  | some u =>
      unfold cmd_refresh
      dsimp only
      split_ifs <;> rfl

theorem cmd_cleanup_users_verified (st : BotState) (uid : Option Int) :
    (cmd_cleanup_users st uid).2.verified_users = st.verified_users := by
  cases uid with
  | none => rfl
  | some u =>
      unfold cmd_cleanup_users
      dsimp only
      split_ifs <;> rfl

theorem cmd_reload_config_state (st : BotState) (uid : Option Int) :
    (cmd_reload_config st uid).2 = st := by
  cases uid with
  | none => rfl
  | some u =>
      unfold cmd_reload_config
      dsimp only
      split_ifs <;> rfl

theorem cmd_total_movies_state (st : BotState) (uid : Option Int) :
    (cmd_total_movies st uid).2 = st := by
  cases uid with
  | none => rfl
  | some u =>
      unfold cmd_total_movies
      dsimp only
      split_ifs <;> rfl

theorem cmd_help_state (st : BotState) (uid : Option Int) :
    (cmd_help st uid).2 = st := by
  cases uid with
  | none => rfl
  | some u =>
      unfold cmd_help
      dsimp only
      split_ifs <;> rfl

theorem cmd_stats_state (st : BotState) (uid : Option Int) (now : Rat) :
    (cmd_stats st uid now).2 = st := by
  cases uid with
  | none => rfl
  | some u =>
      unfold cmd_stats
      dsimp only
      split_ifs <;> rfl

theorem cmd_broadcast_state (st : BotState) (uid : Option Int) (mt : String)
    (rp : Option ReplyContent) (oc : Int → Option String) :
    (cmd_broadcast st uid mt rp oc).2 = st := by
  cases uid with
  | none => rfl
  | some u =>
      unfold cmd_broadcast
      dsimp only
      split_ifs <;> rfl

/-! Section: Claim C5: gate monotonicity -/

/-- Claim C5: across every event the dispatcher can route, the verified-user
set only grows: membership is preserved by every handler, the set is either
left unchanged or extended by the insertion performed by the "joined" callback,
and that callback is exactly the insertion of the calling user. -/
theorem gate_monotonicity (libId : Int) (st : BotState) (e : Event) :
    (∀ u : Int, u ∈ st.verified_users → u ∈ (dispatch libId st e).2.verified_users) ∧
    ((dispatch libId st e).2.verified_users = st.verified_users ∨
      ∃ u : Int, e = Event.joinedCallback (some u) ∧
        (dispatch libId st e).2.verified_users = st.verified_users.insert u) ∧
    (∀ u : Int,
        (dispatch libId st (Event.joinedCallback (some u))).2.verified_users =
          st.verified_users.insert u) := by
  have hchar : (dispatch libId st e).2.verified_users = st.verified_users ∨
      ∃ u : Int, e = Event.joinedCallback (some u) ∧
        (dispatch libId st e).2.verified_users = st.verified_users.insert u := by
    cases e with
    | startCmd uid => exact Or.inl (cmd_start_verified st uid)
    | joinedCallback uid =>
        cases uid with
        | none => exact Or.inl rfl
        | some u => exact Or.inr ⟨u, rfl, rfl⟩
    | searchMsg uid txt now hits ok m =>
        exact Or.inl (handle_search_verified st uid txt now hits ok m)
    | postCallback uid data =>
        exact Or.inl (congrArg BotState.verified_users (send_movie_link_state libId st uid data))
    | channelPost p c i => exact Or.inl (handle_channel_post_verified libId st p c i)
    | refreshCmd uid =>
        exact Or.inl (congrArg BotState.verified_users (cmd_refresh_state st uid))
    | cleanupUsersCmd uid => exact Or.inl (cmd_cleanup_users_verified st uid)
    | reloadConfigCmd uid =>
        exact Or.inl (congrArg BotState.verified_users (cmd_reload_config_state st uid))
    | totalMoviesCmd uid =>
        exact Or.inl (congrArg BotState.verified_users (cmd_total_movies_state st uid))
    | helpCmd uid =>
        exact Or.inl (congrArg BotState.verified_users (cmd_help_state st uid))
    | statsCmd uid now =>
        exact Or.inl (congrArg BotState.verified_users (cmd_stats_state st uid now))
    | broadcastCmd uid mt rp oc =>
        exact Or.inl (congrArg BotState.verified_users (cmd_broadcast_state st uid mt rp oc))
  refine ⟨?_, hchar, fun u => rfl⟩
  intro u hu
  rcases hchar with h | ⟨v, _, h⟩
  · rw [h]
    exact hu
  · rw [h]
    exact List.mem_insert_of_mem hu

/-- Witness for C5: user 5, verified in `stVerified`, stays verified across a
stats event, and the joined callback of user 9 is the insertion of 9. -/
theorem gate_monotonicity_witness :
    5 ∈ (dispatch CORRECT_LIBRARY_CHANNEL_ID stVerified (Event.statsCmd none 0)).2.verified_users ∧
    (dispatch CORRECT_LIBRARY_CHANNEL_ID stVerified
        (Event.joinedCallback (some 9))).2.verified_users =
      stVerified.verified_users.insert 9 :=
  ⟨(gate_monotonicity CORRECT_LIBRARY_CHANNEL_ID stVerified (Event.statsCmd none 0)).1 5
      (by decide),
   (gate_monotonicity CORRECT_LIBRARY_CHANNEL_ID stVerified
      (Event.joinedCallback (some 9))).2.2 9⟩

/-! Section: Claim C6: operator isolation -/

/-- Claim C6: every admin command handler invoked by a user id outside
`ADMIN_IDS` returns before any catalog mutation, broadcast send, or privileged
output: the state is unchanged and the caller receives no effect at all, except
for /help which answers only the fixed generic message. -/
theorem operator_isolation (st : BotState) (u : Int) (now : Rat) (mt : String)
    (rp : Option ReplyContent) (oc : Int → Option String) (hu : u ∉ ADMIN_IDS) :
    cmd_broadcast st (some u) mt rp oc = ([], st) ∧
    cmd_stats st (some u) now = ([], st) ∧
    cmd_total_movies st (some u) = ([], st) ∧
    cmd_cleanup_users st (some u) = ([], st) ∧
    cmd_refresh st (some u) = ([], st) ∧
    cmd_reload_config st (some u) = ([], st) ∧
    cmd_help st (some u) = ([Effect.answer help_generic_msg], st) := by
  refine ⟨?_, ?_, ?_, ?_, ?_, ?_, ?_⟩
  · unfold cmd_broadcast
    dsimp only
    rw [if_neg hu]
  · unfold cmd_stats
    dsimp only
    rw [if_neg hu]
  · unfold cmd_total_movies
    dsimp only
    rw [if_neg hu]
  · unfold cmd_cleanup_users
    dsimp only
    rw [if_neg hu]
  · unfold cmd_refresh
    dsimp only
    rw [if_neg hu]
  · unfold cmd_reload_config
    dsimp only
    rw [if_neg hu]
  · unfold cmd_help
    dsimp only
    rw [if_neg hu]

/-- Witness for C6: user 99 is not an operator; every admin command is silent
and harmless on the empty state, /help answers only the generic message. -/
theorem operator_isolation_witness :
    cmd_broadcast initState (some 99) "" none ocSample = ([], initState) ∧
    cmd_stats initState (some 99) 0 = ([], initState) ∧
    cmd_total_movies initState (some 99) = ([], initState) ∧
    cmd_cleanup_users initState (some 99) = ([], initState) ∧
    cmd_refresh initState (some 99) = ([], initState) ∧
    cmd_reload_config initState (some 99) = ([], initState) ∧
    cmd_help initState (some 99) = ([Effect.answer help_generic_msg], initState) :=
  operator_isolation initState 99 0 "" none ocSample (by decide)

/-! Section: Claim C8: broadcast fan-out accounting -/

theorem broadcast_loop_effects (users : List Int) (outcome : Int → Option String) :
    (broadcast_loop users outcome).2.2 = users.map Effect.sendBroadcast := by
  induction users with
  | nil => rfl
  | cons u rest ih =>
      cases ho : outcome u with
      | none => simp [broadcast_loop, ho, ih]
      | some e =>
          by_cases hb : classify_blocked e = true
          · simp [broadcast_loop, ho, hb, ih]
          · simp [broadcast_loop, ho, hb, ih]

theorem broadcast_loop_sent (users : List Int) (outcome : Int → Option String) :
    (broadcast_loop users outcome).1 =
      (users.filter (fun u => (outcome u).isNone)).length := by
  induction users with
  | nil => rfl
  | cons u rest ih =>
      cases ho : outcome u with
      | none => simp [broadcast_loop, ho, ih, List.filter_cons]
      | some e =>
          by_cases hb : classify_blocked e = true
          · simp [broadcast_loop, ho, hb, ih, List.filter_cons]
          · simp [broadcast_loop, ho, hb, ih, List.filter_cons]

theorem broadcast_loop_blocked (users : List Int) (outcome : Int → Option String) :
    (broadcast_loop users outcome).2.1 =
      (users.filter (fun u => ((outcome u).map classify_blocked).getD false)).length := by
  induction users with
  | nil => rfl
  | cons u rest ih =>
      cases ho : outcome u with
      | none => simp [broadcast_loop, ho, ih, List.filter_cons]
      | some e =>
          by_cases hb : classify_blocked e = true
          · simp [broadcast_loop, ho, hb, ih, List.filter_cons]
          · simp [broadcast_loop, ho, hb, ih, List.filter_cons]

theorem broadcast_loop_le (users : List Int) (outcome : Int → Option String) :
    (broadcast_loop users outcome).1 + (broadcast_loop users outcome).2.1 ≤ users.length := by
  induction users with
  | nil => simp [broadcast_loop]
  | cons u rest ih =>
      cases ho : outcome u with
      | none =>
          simp only [broadcast_loop, ho, List.length_cons]
          omega
      | some e =>
          by_cases hb : classify_blocked e = true
          · simp [broadcast_loop, ho, hb]
            omega
          · simp [broadcast_loop, ho, hb]
            omega

/-- Claim C8: the broadcast fan-out attempts each directory entry exactly once
in order and never retries; the sent counter counts exactly the successful
deliveries, the blocked counter counts exactly the failures whose lowercased
error text contains "blocked" or "deactivated"; sent plus blocked never exceeds
the directory size, and the Blocked/Failed figure printed by the summary,
blocked + (N - sent - blocked), equals N - sent. -/
theorem broadcast_accounting (users : List Int) (outcome : Int → Option String)
    (hnd : users.Nodup) :
    (broadcast_loop users outcome).2.2 = users.map Effect.sendBroadcast ∧
    (∀ u ∈ users, (broadcast_loop users outcome).2.2.count (Effect.sendBroadcast u) = 1) ∧
    (broadcast_loop users outcome).1 =
      (users.filter (fun u => (outcome u).isNone)).length ∧
    (broadcast_loop users outcome).2.1 =
      (users.filter (fun u => ((outcome u).map classify_blocked).getD false)).length ∧
    (broadcast_loop users outcome).1 + (broadcast_loop users outcome).2.1 ≤ users.length ∧
    (broadcast_loop users outcome).2.1 +
        (users.length - (broadcast_loop users outcome).1 -
          (broadcast_loop users outcome).2.1) =
      users.length - (broadcast_loop users outcome).1 := by
  refine ⟨broadcast_loop_effects users outcome, ?_, broadcast_loop_sent users outcome,
    broadcast_loop_blocked users outcome, broadcast_loop_le users outcome, ?_⟩
  · intro u hu
    rw [broadcast_loop_effects]
    exact List.count_eq_one_of_mem (hnd.map (fun a b h => Effect.sendBroadcast.inj h))
      (List.mem_map_of_mem _ hu)
  · have := broadcast_loop_le users outcome
    omega

/-- Witness for C8: three recipients; user 2 raises a blocked error, user 3 a
generic error, user 1 succeeds. -/
theorem broadcast_accounting_witness :
    (broadcast_loop [1, 2, 3] ocSample).2.2 = [1, 2, 3].map Effect.sendBroadcast ∧
    (broadcast_loop [1, 2, 3] ocSample).2.2.count (Effect.sendBroadcast 2) = 1 ∧
    (broadcast_loop [1, 2, 3] ocSample).1 =
      ([1, 2, 3].filter (fun u => (ocSample u).isNone)).length ∧
    (broadcast_loop [1, 2, 3] ocSample).2.1 =
      ([1, 2, 3].filter (fun u => ((ocSample u).map classify_blocked).getD false)).length ∧
    (broadcast_loop [1, 2, 3] ocSample).1 + (broadcast_loop [1, 2, 3] ocSample).2.1 ≤
      ([1, 2, 3] : List Int).length ∧
    (broadcast_loop [1, 2, 3] ocSample).2.1 +
        (([1, 2, 3] : List Int).length - (broadcast_loop [1, 2, 3] ocSample).1 -
          (broadcast_loop [1, 2, 3] ocSample).2.1) =
      ([1, 2, 3] : List Int).length - (broadcast_loop [1, 2, 3] ocSample).1 :=
  ⟨(broadcast_accounting [1, 2, 3] ocSample (by decide)).1,
   (broadcast_accounting [1, 2, 3] ocSample (by decide)).2.1 2 (by decide),
   (broadcast_accounting [1, 2, 3] ocSample (by decide)).2.2.1,
   (broadcast_accounting [1, 2, 3] ocSample (by decide)).2.2.2.1,
   (broadcast_accounting [1, 2, 3] ocSample (by decide)).2.2.2.2.1,
   (broadcast_accounting [1, 2, 3] ocSample (by decide)).2.2.2.2.2⟩

end Mazapo
